import Mathlib

/-!
Shallow embedding of the fitness-assistant repository (Python sources:
`fitness_agent.py`, `app.py`, `interactive_chat.py`, `calendar_agent.py`,
`db_manager.py`) used to settle the claims of the specification.

Conventions of the embedding:
* Python strings are Lean `String`s; the Python string operations used by the
  code (`split`, `strip`, `lower`, `replace`, whitespace `split()`, `in`,
  `int()`, `float()`) are re-implemented below as structurally recursive
  functions over the character list, so that every definition evaluates inside
  the kernel.
* Values produced by `json.loads` are modelled by the inductive type `Json`;
  JSON floats are modelled as rationals (IEEE-754 rounding and Python float
  `repr` are not modelled bit-exactly).
* Fallible Python code (element validation, `KeyError` on dict access,
  pydantic construction) is modelled with `Option`/`Except`.
* The LLM backend is external: a generation call is modelled by its parsed
  outcome, `Option Json`, where `none` stands for a response whose text is not
  parsable as JSON (`json.JSONDecodeError`).
-/

/-! ## Python string primitives -/

/-- Decides whether `p` is a (character-wise) leading segment of `l`. Helper for
the Python substring operations below. -/
def isPre : List Char → List Char → Bool
  | [], _ => true
  | _ :: _, [] => false
  | a :: as, b :: bs => a = b && isPre as bs

/-- One-pass splitter: scans `l` left to right keeping the current chunk
reversed in `acc`; as soon as the chunk ends with the separator (detected on
the reversed chunk via `sepRev`), the chunk (separator removed) is emitted.
This computes Python `s.split(sep)` semantics: leftmost, non-overlapping. -/
def splitOnAux (sepRev : List Char) (sepLen : Nat) : List Char → List Char → List (List Char)
  | [], acc => [acc.reverse]
  | c :: cs, acc =>
    let acc' := c :: acc
    if isPre sepRev acc' then
      (acc'.drop sepLen).reverse :: splitOnAux sepRev sepLen cs []
    else
      splitOnAux sepRev sepLen cs acc'

/-- Python `s.split(sep)` for a non-empty separator (Python raises on an empty
separator; every call site in the sources uses a non-empty literal). -/
def pySplitOn (s sep : String) : List String :=
  if sep.data.isEmpty then [s]
  else (splitOnAux sep.data.reverse sep.data.length s.data []).map String.mk

/-- Python `sub in s` (substring containment): `s.split(sub)` has at least two
parts exactly when `sub` occurs in `s`. -/
def pyContains (s sub : String) : Bool :=
  (pySplitOn s sub).length ≥ 2

/-- Python `s.split(sep)[1]`: `some` part exactly when `sep` occurs in `s`
(matches the guarded `if sep in s: ... s.split(sep)[1]` idiom of the sources;
`none` corresponds to the guard failing, or to an uncaught `IndexError`). -/
def pySplitIdx1 (s sep : String) : Option String :=
  (pySplitOn s sep).get? 1

/-- Accumulator version of Python `s.replace(old, new)`: same one-pass scheme
as `splitOnAux`; `acc` is the output built in reverse. -/
def replaceAux (oldRev newRev : List Char) (oldLen : Nat) : List Char → List Char → List Char
  | [], acc => acc.reverse
  | c :: cs, acc =>
    let acc' := c :: acc
    if isPre oldRev acc' then
      replaceAux oldRev newRev oldLen cs (newRev ++ acc'.drop oldLen)
    else
      replaceAux oldRev newRev oldLen cs acc'

/-- Python `s.replace(old, new)` for a non-empty `old` (all call sites use a
non-empty literal). -/
def pyReplace (s old new : String) : String :=
  if old.data.isEmpty then s
  else String.mk (replaceAux old.data.reverse new.data.reverse old.data.length s.data [])

/-- Python `s.strip()`: removes leading and trailing whitespace. -/
def pyStrip (s : String) : String :=
  String.mk (((s.data.dropWhile Char.isWhitespace).reverse.dropWhile Char.isWhitespace).reverse)

/-- Python `s.lower()` (character-wise; adequate for the ASCII command words the
sources compare against). -/
def pyLower (s : String) : String :=
  String.mk (s.data.map Char.toLower)

/-- Accumulator for Python whitespace `s.split()`: tokens are maximal runs of
non-whitespace; empty tokens are never produced. -/
def wsSplitAux : List Char → List Char → List (List Char)
  | [], acc => if acc.isEmpty then [] else [acc.reverse]
  | c :: cs, acc =>
    if c.isWhitespace then
      if acc.isEmpty then wsSplitAux cs [] else acc.reverse :: wsSplitAux cs []
    else
      wsSplitAux cs (c :: acc)

/-- Python `s.split()` (no separator: split on whitespace runs, drop empties). -/
def pyWsSplit (s : String) : List String :=
  (wsSplitAux s.data []).map String.mk

/-- Value of a non-empty all-digit character list. -/
def digitsVal? (l : List Char) : Option Nat :=
  if l.isEmpty then none
  else if l.all Char.isDigit then
    some (l.foldl (fun n c => 10 * n + (c.toNat - '0'.toNat)) 0)
  else none

/-- Python `int(s)` on a string: strips surrounding whitespace, then an optional
sign followed by digits. (Python additionally accepts underscore digit
separators and non-ASCII digits; no call site relies on those.) -/
def pyInt? (s : String) : Option Int :=
  match (pyStrip s).data with
  | '-' :: ds => (digitsVal? ds).map (fun n => -(n : Int))
  | '+' :: ds => (digitsVal? ds).map (fun n => (n : Int))
  | ds => (digitsVal? ds).map (fun n => (n : Int))

/-- Value of a possibly-empty digit list (for fraction digits of a float). -/
def digitsValOrZero (l : List Char) : Nat :=
  l.foldl (fun n c => 10 * n + (c.toNat - '0'.toNat)) 0

/-- Parses the unsigned body of a Python float literal: `digits`, `digits.`,
`digits.digits` or `.digits` (at least one digit overall). -/
def floatBody? (ds : List Char) : Option Rat :=
  let ip := ds.takeWhile Char.isDigit
  let rest := ds.dropWhile Char.isDigit
  match rest with
  | [] => if ip.isEmpty then none else some ((digitsValOrZero ip : Rat))
  | '.' :: fp =>
    if fp.all Char.isDigit ∧ ¬(ip.isEmpty ∧ fp.isEmpty) then
      some ((digitsValOrZero ip : Rat) + (digitsValOrZero fp : Rat) / ((10 : Rat) ^ fp.length))
    else none
  | _ => none

/-- Python `float(s)`: strip, optional sign, decimal body. (Exponent notation
and `inf`/`nan` are accepted by Python but unused by the data the sources
coerce; floats are modelled as rationals.) -/
def pyFloat? (s : String) : Option Rat :=
  match (pyStrip s).data with
  | '-' :: ds => (floatBody? ds).map (fun q => -q)
  | '+' :: ds => floatBody? ds
  | ds => floatBody? ds

/-- Python `int(x)` on a float value: truncation toward zero. -/
def intOfRat (q : Rat) : Int :=
  q.num / (q.den : Int)

/-- Python list indexing `xs[i]`: non-negative indices are positional, negative
indices count from the end; `none` models `IndexError`. -/
def pyIndex {α : Type} (xs : List α) (i : Int) : Option α :=
  if 0 ≤ i then xs.get? i.toNat
  else if 0 ≤ (xs.length : Int) + i then xs.get? ((xs.length : Int) + i).toNat
  else none

/-- Python `d[k]` lookup on a dict modelled as an association list with unique
keys (`none` models `KeyError`). -/
def dictGet? {α : Type} : List (String × α) → String → Option α
  | [], _ => none
  | (k', v') :: d, k => if k' = k then some v' else dictGet? d k

/-- Python `d[k] = v` on a dict modelled as an association list with unique
keys: an existing key keeps its position and gets the new value, a new key is
appended (Python dicts preserve insertion order). -/
def dictSet {α : Type} : List (String × α) → String → α → List (String × α)
  | [], k, v => [(k, v)]
  | (k', v') :: d, k, v => if k' = k then (k, v) :: d else (k', v') :: dictSet d k v

/-- Joins strings with a separator (used to rebuild the remainder after a
`split(":", 1)`). -/
def joinSep (sep : String) : List String → String
  | [] => ""
  | [x] => x
  | x :: xs => x ++ sep ++ joinSep sep xs

/-- Python `s.split(sep, 1)` restricted to the guarded use in the sources:
`some (before, after)` at the first colon, `none` when `sep` does not occur. -/
def splitFirstColon (s : String) : Option (String × String) :=
  match pySplitOn s ":" with
  | k :: r :: rest => some (k, joinSep ":" (r :: rest))
  | _ => none

/-! ## JSON values (results of `json.loads`) -/

/-- A Python value produced by `json.loads`. Object fields model a Python dict
(insertion-ordered, unique keys). `float` carries a rational: IEEE-754 is not
modelled. -/
inductive Json where
  | str : String → Json
  | int : Int → Json
  | float : Rat → Json
  | bool : Bool → Json
  | null : Json
  | arr : List Json → Json
  | obj : List (String × Json) → Json

mutual
/-- Python `repr` of a parsed-JSON value (as used by `str()` on containers).
The quote-escaping inside strings and the float `repr` are approximated; no
claim depends on them. -/
def pyRepr : Json → String
  | .str s => "\x27" ++ s ++ "\x27"
  | .int n => toString n
  | .float q =>
    if q.den = 1 then toString q.num ++ ".0" else toString q.num ++ "/" ++ toString q.den
  | .bool b => if b then "True" else "False"
  | .null => "None"
  | .arr xs => "[" ++ joinSep ", " (pyReprList xs) ++ "]"
  | .obj fs => "\x7b" ++ joinSep ", " (pyReprFields fs) ++ "\x7d"

def pyReprList : List Json → List String
  | [] => []
  | x :: xs => pyRepr x :: pyReprList xs

def pyReprFields : List (String × Json) → List String
  | [] => []
  | (k, v) :: fs => ("\x27" ++ k ++ "\x27: " ++ pyRepr v) :: pyReprFields fs
end

/-- Python `str(x)` on a parsed-JSON value. -/
def pyStr : Json → String
  | .str s => s
  | j => pyRepr j

/-- Python iteration `for x in v` over a parsed-JSON value: arrays yield their
elements, dicts yield their keys, strings yield their characters; iterating
any other value raises `TypeError` (`none`), which the sources catch with
their outermost `except` and answer with the fallback plan. -/
def pyIter : Json → Option (List Json)
  | .arr xs => some xs
  | .obj fs => some (fs.map (fun kv => Json.str kv.1))
  | .str s => some (s.data.map (fun c => Json.str (String.mk [c])))
  | _ => none

/-- Python `isinstance(x, int)` on a parsed-JSON value (`bool` is a subclass of
`int` in Python). -/
def isPyInt : Json → Bool
  | .int _ => true
  | .bool _ => true
  | _ => false

/-- Python `isinstance(x, float)` on a parsed-JSON value. -/
def isPyFloat : Json → Bool
  | .float _ => true
  | _ => false

/-! ## Pydantic record types (`fitness_agent.py` lines 33-44) -/

/-- Embeds `WorkoutPlan(BaseModel)`: `day: str`, `exercises: List[Dict[str, str]]`,
`duration: str`, `intensity: str`. An exercise dict is an association list. -/
structure WorkoutPlan where
  day : String
  exercises : List (List (String × String))
  duration : String
  intensity : String
  deriving DecidableEq

/-- Embeds `DietPlan(BaseModel)`: `meal_type: str`, `foods: List[str]`,
`calories: int`, `macros: Dict[str, float]`. -/
structure DietPlan where
  meal_type : String
  foods : List String
  calories : Int
  macros : List (String × Rat)
  deriving DecidableEq

/-- Pydantic v2 validation of a `str` field (lax mode accepts only `str`). -/
def pydStr? : Json → Option String
  | .str s => some s
  | _ => none

/-- Pydantic v2 validation of an `int` field: `int` accepted, integral `float`
accepted, numeric `str` parsed, `bool` rejected. -/
def pydInt? : Json → Option Int
  | .int n => some n
  | .float q => if q.den = 1 then some q.num else none
  | .str s => pyInt? s
  | _ => none

/-- Pydantic v2 validation of a `float` field: `float` and `int` accepted,
numeric `str` parsed, `bool` rejected. -/
def pydFloat? : Json → Option Rat
  | .float q => some q
  | .int n => some ((n : Rat))
  | .str s => pyFloat? s
  | _ => none

/-- Pydantic validation of a `Dict[str, str]` field. -/
def pydStrPairs? : Json → Option (List (String × String))
  | .obj fs => fs.mapM (fun kv => (pydStr? kv.2).map (fun v => (kv.1, v)))
  | _ => none

/-- Pydantic validation of a `List[Dict[str, str]]` field. -/
def pydExercises? : Json → Option (List (List (String × String)))
  | .arr xs => xs.mapM pydStrPairs?
  | _ => none

/-- Pydantic validation of a `List[str]` field. -/
def pydStrList? : Json → Option (List String)
  | .arr xs => xs.mapM pydStr?
  | _ => none

/-- Pydantic validation of a `Dict[str, float]` field. -/
def pydMacros? : Json → Option (List (String × Rat))
  | .obj fs => fs.mapM (fun kv => (pydFloat? kv.2).map (fun v => (kv.1, v)))
  | _ => none

/-- Embeds `WorkoutPlan(**plan_data)`: requires a dict with validating `day`,
`exercises`, `duration`, `intensity` fields (extra keys are ignored by
pydantic); any failure raises, modelled by `none`. A non-dict argument raises
`TypeError`, also `none`. -/
def mkWorkoutPlan? : Json → Option WorkoutPlan
  | .obj fs => do
    let day ← dictGet? fs "day" >>= pydStr?
    let exercises ← dictGet? fs "exercises" >>= pydExercises?
    let duration ← dictGet? fs "duration" >>= pydStr?
    let intensity ← dictGet? fs "intensity" >>= pydStr?
    some ⟨day, exercises, duration, intensity⟩
  | _ => none

/-- Embeds `DietPlan(**meal_data)` (same conventions as `mkWorkoutPlan?`). -/
def mkDietPlan? : Json → Option DietPlan
  | .obj fs => do
    let meal_type ← dictGet? fs "meal_type" >>= pydStr?
    let foods ← dictGet? fs "foods" >>= pydStrList?
    let calories ← dictGet? fs "calories" >>= pydInt?
    let macros ← dictGet? fs "macros" >>= pydMacros?
    some ⟨meal_type, foods, calories, macros⟩
  | _ => none

/-! ## Plan Generator (`fitness_agent.py`) -/

/-- The per-element exercise coercion of `create_workout_plan` (lines 100-112):
if the element is a dict whose `exercises` key holds a list, every dict in that
list has its values forced to `str(value)`; non-dict entries are left as they
are (the `continue` at line 112 is a no-op). This step never raises. -/
def coerce_exercises : Json → Json
  | .obj fs =>
    match dictGet? fs "exercises" with
    | some (.arr xs) =>
      .obj (fs.map (fun kv =>
        if kv.1 = "exercises" then
          (kv.1, Json.arr (xs.map (fun e =>
            match e with
            | .obj efs => .obj (efs.map (fun ekv => (ekv.1, Json.str (pyStr ekv.2))))
            | _ => e)))
        else kv))
    | _ => .obj fs
  | j => j

/-- The elements of the parsed response that survive coercion plus
`WorkoutPlan` construction (the loop of lines 97-120: elements that raise are
dropped individually). -/
def workout_survivors (items : List Json) : List WorkoutPlan :=
  items.filterMap (fun it => mkWorkoutPlan? (coerce_exercises it))

/-- Embeds `FitnessAgent._create_fallback_workout_plan(days)` (lines 142-162):
`days` identical generic days labelled `Day 1 .. Day days` (an `int` argument
below zero gives `range(days) = []`, matching Python). -/
def _create_fallback_workout_plan (days : Int) : List WorkoutPlan :=
  (List.range days.toNat).map (fun i =>
    { day := "Day " ++ toString (i + 1)
      exercises :=
        [[("name", "Push-ups"), ("sets", "3"), ("reps", "12"), ("rest_period", "60s")],
         [("name", "Squats"), ("sets", "3"), ("reps", "15"), ("rest_period", "60s")],
         [("name", "Plank"), ("sets", "3"), ("reps", "30s"), ("rest_period", "60s")]]
      duration := "45 minutes"
      intensity := "moderate" })

/-- Embeds `FitnessAgent.create_workout_plan(days, fitness_level)` (lines 66-140),
abstracted over the parsed LLM response: `none` is an unparsable response
(`json.JSONDecodeError`, line 133); a non-iterable parsed value raises at the
`for` and is caught by the outer `except Exception` (line 137); otherwise the
individually-validated elements are returned, or the fallback if none
validated (lines 122-132). The `fitness_level` argument only shapes the prompt
and does not influence this post-processing. -/
def create_workout_plan (days : Int) (response : Option Json) : List WorkoutPlan :=
  match response with
  | none => _create_fallback_workout_plan days
  | some j =>
    match pyIter j with
    | none => _create_fallback_workout_plan days
    | some items =>
      let plans := workout_survivors items
      if plans.isEmpty then _create_fallback_workout_plan days else plans

/-- The calorie coercion of `create_diet_plan` (lines 198-203): a non-`int`
`calories` value is forced through `int(float(str(v).replace(",", "")))`;
a parse failure raises (`none`), dropping the element. -/
def coerceCalories? (fs : List (String × Json)) : Option (List (String × Json)) :=
  match dictGet? fs "calories" with
  | none => some fs
  | some v =>
    if isPyInt v then some fs
    else
      (pyFloat? (pyReplace (pyStr v) "," "")).map (fun q =>
        dictSet fs "calories" (Json.int (intOfRat q)))

/-- The macros coercion of `create_diet_plan` (lines 206-213): every non-`float`
value of a `macros` dict is forced through `float(str(v).replace(",", ""))`;
a parse failure raises (`none`), dropping the element. -/
def coerceMacros? (fs : List (String × Json)) : Option (List (String × Json)) :=
  match dictGet? fs "macros" with
  | some (.obj ms) =>
    (ms.mapM (fun kv =>
      if isPyFloat kv.2 then some kv
      else (pyFloat? (pyReplace (pyStr kv.2) "," "")).map (fun q => (kv.1, Json.float q)))).map
      (fun ms' => dictSet fs "macros" (Json.obj ms'))
  | _ => some fs

/-- One element of the diet loop (lines 195-219): coercions then
`DietPlan(**meal_data)`; any raise drops the element. A non-dict element
either raises during the `in`/`[]` checks or fails construction — both drop
it, so it is routed through `mkDietPlan?` directly. -/
def mkCoercedDietPlan? (j : Json) : Option DietPlan :=
  match j with
  | .obj fs => do
    let fs1 ← coerceCalories? fs
    let fs2 ← coerceMacros? fs1
    mkDietPlan? (.obj fs2)
  | _ => mkDietPlan? j

/-- The elements of the parsed diet response that survive coercion plus
construction. -/
def diet_survivors_of (items : List Json) : List DietPlan :=
  items.filterMap mkCoercedDietPlan?

/-- Survivors of a whole parsed response (empty when iteration raises). -/
def diet_survivors (j : Json) : List DietPlan :=
  match pyIter j with
  | none => []
  | some items => diet_survivors_of items

/-- Embeds `FitnessAgent._create_fallback_diet_plan()` (lines 239-267): the fixed
4-meal plan. It takes no argument: the requested daily calories cannot
influence it. -/
def _create_fallback_diet_plan : List DietPlan :=
  [{ meal_type := "Breakfast"
     foods := ["Oatmeal", "Banana", "Protein Shake"]
     calories := 500
     macros := [("protein", 30), ("carbs", 60), ("fat", 10)] },
   { meal_type := "Lunch"
     foods := ["Chicken Breast", "Brown Rice", "Broccoli"]
     calories := 700
     macros := [("protein", 40), ("carbs", 45), ("fat", 15)] },
   { meal_type := "Dinner"
     foods := ["Salmon", "Sweet Potato", "Asparagus"]
     calories := 600
     macros := [("protein", 35), ("carbs", 35), ("fat", 30)] },
   { meal_type := "Snack"
     foods := ["Greek Yogurt", "Almonds", "Berries"]
     calories := 300
     macros := [("protein", 20), ("carbs", 15), ("fat", 15)] }]

/-- Embeds `FitnessAgent.create_diet_plan(daily_calories)` (lines 164-237), abstracted
over the parsed LLM response exactly like `create_workout_plan`. The
`daily_calories` argument only shapes the prompt. -/
def create_diet_plan (daily_calories : Int) (response : Option Json) : List DietPlan :=
  match response with
  | none => _create_fallback_diet_plan
  | some j =>
    match pyIter j with
    | none => _create_fallback_diet_plan
    | some items =>
      let plans := diet_survivors_of items
      if plans.isEmpty then _create_fallback_diet_plan else plans

/-! ## Calendar Exporter (`calendar_agent.py`) -/

/-- One event of the exported calendar. `begin` and `duration` are in minutes
(a `datetime` is modelled as minutes since the epoch, so `+ timedelta(days=i)`
is `+ 1440 * i`); `uid` abstracts the fresh `uuid4()` by the event's index
(the source only requires uniqueness). -/
structure CalEvent where
  name : String
  description : String
  begin : Int
  duration : Int
  uid : Nat
  deriving DecidableEq

/-- One description line of `create_workout_calendar` (lines 74-78):
`exercise["name"]`/`["sets"]`/`["reps"]` raise `KeyError` on a missing key
(`none`); `rest_period` is optional. -/
def exerciseLine? (e : List (String × String)) : Option String := do
  let n ← dictGet? e "name"
  let s ← dictGet? e "sets"
  let r ← dictGet? e "reps"
  some ("- " ++ n ++ ": " ++ s ++ " sets x " ++ r ++ " reps" ++
    (match dictGet? e "rest_period" with
     | some rp => " (Rest: " ++ rp ++ ")"
     | none => "") ++ "\n")

/-- The event description built from a workout (lines 72-80). -/
def workoutDescription? (w : WorkoutPlan) : Option String := do
  let lines ← w.exercises.mapM exerciseLine?
  some ("Intensity: " ++ w.intensity ++ "\n" ++ "Exercises:\n" ++ String.join lines)

/-- The event built for `(i, workout)` in the loop of
`create_workout_calendar` (lines 67-94): `event.begin = start_date +
timedelta(days=i)`, `event.duration = timedelta(minutes=...)`. -/
def calEventOf (start_date workout_duration_minutes : Int) (iw : Nat × WorkoutPlan) :
    Option CalEvent := do
  let d ← workoutDescription? iw.2
  some { name := "Workout: " ++ iw.2.day
         description := d
         begin := start_date + 1440 * (iw.1 : Int)
         duration := workout_duration_minutes
         uid := iw.1 }

/-- Embeds `CalendarAgent.create_workout_calendar` (lines 42-106) up to the file
write: the event list built by `for i, workout in enumerate(workout_plans)`
(default duration 60 minutes). `none` models a `KeyError` escaping from the
description loop. Serialisation and the filename are file I/O outside this
model. -/
def create_workout_calendar (workout_plans : List WorkoutPlan) (start_date : Int)
    (workout_duration_minutes : Int := 60) : Option (List CalEvent) :=
  workout_plans.enum.mapM (calEventOf start_date workout_duration_minutes)

/-! ## Persistence Gateway (`db_manager.py`)

Each operation is compiled to a function over an oracle describing the
outcome of its underlying database calls: `QOutcome.err` is a
`psycopg2.Error` raised by the call (the only exception the `except` arms
catch, and the only kind the database driver raises here), and the `conn`
flag is `self.conn is not None`. The read operations return their sentinel
on every failure and never raise, so they are total into their result type.
The four writing operations call `self.conn.rollback()` inside their
`except psycopg2.Error` handler; that rollback is itself a database call
that can raise (e.g. when the connection has died), and nothing catches it —
such an exception escapes the gateway. Their result type `GatewayResult`
makes this escape expressible: `ret` is a normal return, `raised` an
exception propagating past the gateway boundary. -/

/-- Outcome of an underlying database call. -/
inductive QOutcome (α : Type) where
  | ok : α → QOutcome α
  | err : QOutcome α

/-- Result of one gateway operation as seen by its caller: a returned value,
or an exception that escaped the gateway boundary. -/
inductive GatewayResult (α : Type) where
  | ret : α → GatewayResult α
  | raised : GatewayResult α
  deriving DecidableEq

/-- Embeds `DatabaseManager.get_or_create_user` (lines 133-167): `sel` is the
`SELECT id FROM users` outcome (`some id` when a row exists), `ins` the
`INSERT ... RETURNING id` outcome, and `rb` the outcome of the
`self.conn.rollback()` performed by the `except` handler (line 166). A
statement failure yields the `(-1, False)` sentinel when the rollback
succeeds; a rollback failure escapes the gateway. -/
def db_get_or_create_user (conn : Bool) (sel : QOutcome (Option Int))
    (ins : QOutcome Int) (rb : QOutcome Unit) : GatewayResult (Int × Bool) :=
  if conn then
    match sel with
    | .err =>
      match rb with
      | .ok _ => .ret (-1, false)
      | .err => .raised
    | .ok (some uid) => .ret (uid, false)
    | .ok none =>
      match ins with
      | .err =>
        match rb with
        | .ok _ => .ret (-1, false)
        | .err => .raised
      | .ok uid => .ret (uid, true)
  else .ret (-1, false)

/-- Embeds `DatabaseManager.get_profile` (lines 169-197): empty mapping on no
connection, no row, or error. -/
def db_get_profile (conn : Bool) (sel : QOutcome (Option (List (String × String)))) :
    List (String × String) :=
  if conn then
    match sel with
    | .err => []
    | .ok (some p) => p
    | .ok none => []
  else []

/-- Embeds `DatabaseManager.save_profile` (lines 199-239): `sel` is the
existence check, `wr` the UPDATE-or-INSERT plus COMMIT, `rb` the rollback of
the `except` handler (line 238). A statement failure yields `False` when the
rollback succeeds; a rollback failure escapes the gateway. -/
def db_save_profile (conn : Bool) (sel : QOutcome Bool) (wr : QOutcome Unit)
    (rb : QOutcome Unit) : GatewayResult Bool :=
  if conn then
    match sel with
    | .err =>
      match rb with
      | .ok _ => .ret false
      | .err => .raised
    | .ok _ =>
      match wr with
      | .err =>
        match rb with
        | .ok _ => .ret false
        | .err => .raised
      | .ok _ => .ret true
  else .ret false

/-- Embeds `DatabaseManager.save_workout_plan` (lines 241-271): the INSERT
returning the new row id, with the `except` handler's rollback (line 270).
A statement failure yields `-1` when the rollback succeeds; a rollback
failure escapes the gateway. -/
def db_save_workout_plan (conn : Bool) (ins : QOutcome Int)
    (rb : QOutcome Unit) : GatewayResult Int :=
  if conn then
    match ins with
    | .err =>
      match rb with
      | .ok _ => .ret (-1)
      | .err => .raised
    | .ok plan_id => .ret plan_id
  else .ret (-1)

/-- A saved plan row as the interpreter consumes it (`plan_name`,
`plan_data`); `created_at` is display-only and omitted. -/
structure SavedPlan where
  plan_name : String
  plan_data : List Json

/-- Embeds `DatabaseManager.get_workout_plans` (lines 273-299): empty list on no
connection or error. -/
def db_get_workout_plans (conn : Bool) (sel : QOutcome (List SavedPlan)) : List SavedPlan :=
  if conn then
    match sel with
    | .err => []
    | .ok rows => rows
  else []

/-- Embeds `DatabaseManager.save_diet_plan` (lines 301-331), same shape as
`db_save_workout_plan` (its rollback is at line 330). -/
def db_save_diet_plan (conn : Bool) (ins : QOutcome Int)
    (rb : QOutcome Unit) : GatewayResult Int :=
  if conn then
    match ins with
    | .err =>
      match rb with
      | .ok _ => .ret (-1)
      | .err => .raised
    | .ok plan_id => .ret plan_id
  else .ret (-1)

/-- Embeds `DatabaseManager.get_diet_plans` (lines 333-359), same shape as
`db_get_workout_plans`. -/
def db_get_diet_plans (conn : Bool) (sel : QOutcome (List SavedPlan)) : List SavedPlan :=
  if conn then
    match sel with
    | .err => []
    | .ok rows => rows
  else []

/-! ## Command Interpreter state (`app.py` session state) -/

/-- The slice of `st.session_state` the modelled commands read and write. -/
structure ChatState where
  user_profile : List (String × String)
  current_workout_plan : Option (List WorkoutPlan)
  current_diet_plan : Option (List DietPlan)
  saved_workout_plans : List SavedPlan
  saved_diet_plans : List SavedPlan

/-! ## Parameter extraction (`app.py` / `interactive_chat.py`) -/

/-- The `days:` token: `message.split("days:")[1].split()[0]` guarded by
`"days:" in message` (`none` on a missing marker or an `IndexError` from
`[0]`). -/
def daysToken? (message : String) : Option String :=
  (pySplitIdx1 message "days:").bind (fun part => (pyWsSplit part).head?)

/-- The `days:` extraction shared verbatim by `app.py` lines 840-848 and
`interactive_chat.py` lines 190-198: default 4, `int(days_part)` with
`ValueError`/`IndexError` falling back to the default. -/
def extract_days (message : String) : Int :=
  match daysToken? message with
  | none => 4
  | some tok => (pyInt? tok).getD 4

/-- The fitness levels `app.py` validates against (line 854). -/
def allowed_levels : List String := ["beginner", "intermediate", "advanced"]

/-- The `level:` extraction of `app.py` `process_chat_message` (lines 841,
850-857): lower-cased message, first whitespace token after `level:`, kept
only when it is in `allowed_levels`, else the default `"intermediate"`. -/
def extract_level_app (message : String) : String :=
  match pySplitIdx1 (pyLower message) "level:" with
  | none => "intermediate"
  | some part =>
    match (pyWsSplit (pyStrip part)).head? with
    | none => "intermediate"
    | some lv => if lv ∈ allowed_levels then lv else "intermediate"

/-- The `level:` extraction of `interactive_chat.py`
`handle_workout_creation` (lines 200-208): same token extraction, but the
token is used as-is — there is no membership check against the allowed set. -/
def extract_level_interactive (user_input : String) : String :=
  match pySplitIdx1 (pyLower user_input) "level:" with
  | none => "intermediate"
  | some part =>
    match (pyWsSplit (pyStrip part)).head? with
    | none => "intermediate"
    | some lv => lv

/-- The `(days, fitness_level)` pair `interactive_chat.handle_workout_creation`
(lines 185-213) passes to `FitnessAgent.create_workout_plan`. -/
def handle_workout_creation_params (user_input : String) : Int × String :=
  (extract_days user_input, extract_level_interactive user_input)

/-- The `(days, level)` pair the `create workout` branch of
`app.py` `process_chat_message` (lines 836-861) passes to the plan creator. -/
def process_create_workout_params (message : String) : Int × String :=
  (extract_days message, extract_level_app message)

/-! ## Load-plan commands (`app.py`)

Note on string literals: `app.py` is stored double-encoded, so its emoji
literals are mojibake bytes; they are rendered here as the intended glyphs
(`✅`, `❌`, `📅`, `⏱️`, `💪`, `🍽️`). No claim depends on the exact bytes.
Exception text interpolated by `str(e)` is reproduced where it is fixed
(`str(IndexError)` on a list is exactly `"list index out of range"`) and
abbreviated to `"validation error"` for pydantic's multi-line message. -/

/-- Reply of line 964 (no saved workout plans). -/
def no_saved_workout_msg : String :=
  "You don\x27t have any saved workout plans yet. Create a plan and then say \x27save workout\x27 to save it."

/-- Reply of line 985 (workout-plan index not understood). -/
def cant_understand_workout_msg : String :=
  "I couldn\x27t understand which plan to load. Please say \x27load workout plan: 1\x27 (using the number from the list)."

/-- Reply of line 990 (no saved diet plans). -/
def no_saved_diet_msg : String :=
  "You don\x27t have any saved diet plans yet. Create a plan and then say \x27save diet\x27 to save it."

/-- Reply of line 1009 (diet-plan index not understood). -/
def cant_understand_diet_msg : String :=
  "I couldn\x27t understand which plan to load. Please say \x27load diet plan: 1\x27 (using the number from the list)."

/-- Reply of line 1105: the catch-all `except` wrapping the whole of
`process_chat_message`. -/
def generic_error_msg : String :=
  "I\x27m sorry, I encountered an error processing your request. Please try again or type \x27help\x27 to see available commands."

/-- The plan-number extraction of the `load workout`/`load diet` branches
(lines 967-971 and 993-997): the text after the first `:` if the message has
one, else the text after the literal `plan` (`none` is the `IndexError` when
`plan` does not occur); both stripped. -/
def number_part? (message : String) : Option String :=
  match pySplitOn message ":" with
  | _ :: p1 :: _ => some (pyStrip p1)
  | _ => ((pySplitOn message "plan").get? 1).map pyStrip

/-- Embeds `load_workout_plan(plan_index)` (`app.py` lines 180-198): guard on an empty
saved list, Python indexing (negative indices allowed), then
`WorkoutPlan(**day_plan)` over the stored `plan_data`; every exception is
caught and returned as `(False, str(e))`. -/
def load_workout_plan (saved : List SavedPlan) (plan_index : Int) :
    Except String (List WorkoutPlan × String) :=
  if saved.isEmpty then .error "No saved workout plans"
  else
    match pyIndex saved plan_index with
    | none => .error "list index out of range"
    | some sp =>
      match sp.plan_data.mapM mkWorkoutPlan? with
      | none => .error "validation error"
      | some plans => .ok (plans, "Loaded workout plan: " ++ sp.plan_name)

/-- Embeds `load_diet_plan(plan_index)` (`app.py` lines 202-220), diet analogue. -/
def load_diet_plan (saved : List SavedPlan) (plan_index : Int) :
    Except String (List DietPlan × String) :=
  if saved.isEmpty then .error "No saved diet plans"
  else
    match pyIndex saved plan_index with
    | none => .error "list index out of range"
    | some sp =>
      match sp.plan_data.mapM mkDietPlan? with
      | none => .error "validation error"
      | some plans => .ok (plans, "Loaded diet plan: " ++ sp.plan_name)

/-- Embeds `format_workout_plan` (`app.py` lines 261-274); `none` is the `KeyError`
on a missing `name`/`sets`/`reps` key, which escapes to the catch-all of
`process_chat_message`. -/
def format_workout_plan? (workout_plan : List WorkoutPlan) : Option String := do
  let parts ← workout_plan.mapM (fun p => do
    let lines ← p.exercises.mapM exerciseLine?
    some ("📅 " ++ p.day ++ ":\n" ++ "⏱️ Duration: " ++ p.duration ++ "\n" ++
      "💪 Intensity: " ++ p.intensity ++ "\n" ++ "Exercises:\n" ++
      String.join lines ++ "\n"))
  some (String.join parts)

/-- Rendering of a macro value in an f-string. A whole-valued float prints as
`N.0` like Python; non-integral rationals are approximated as `num/den`
(Python would print the IEEE decimal form). -/
def ratStr (q : Rat) : String :=
  if q.den = 1 then toString q.num ++ ".0" else toString q.num ++ "/" ++ toString q.den

/-- Embeds `format_diet_plan` (`app.py` lines 278-288); `none` is the `KeyError` on a
missing `protein`/`carbs`/`fat` macro. -/
def format_diet_plan? (diet_plan : List DietPlan) : Option String := do
  let parts ← diet_plan.mapM (fun meal => do
    let p ← dictGet? meal.macros "protein"
    let c ← dictGet? meal.macros "carbs"
    let f ← dictGet? meal.macros "fat"
    some ("🍽️ " ++ meal.meal_type ++ ":\n" ++ "Calories: " ++ toString meal.calories ++ "\n" ++
      "Macros: Protein: " ++ ratStr p ++ "g, Carbs: " ++ ratStr c ++ "g, Fat: " ++ ratStr f ++ "g\n" ++
      "Foods:\n" ++ String.join (meal.foods.map (fun food => "- " ++ food ++ "\n")) ++ "\n"))
  some (String.join parts)

/-- The `load workout` branch of `process_chat_message` (`app.py` lines
962-985), as a total reply-and-state function: parse failures answer the
instructional message, an out-of-range index surfaces `load_workout_plan`'s
error tuple as a `❌` reply, and a `KeyError` escaping from the success-path
formatting is absorbed by the function-wide catch-all (after the current plan
has already been replaced). -/
def process_load_workout (message : String) (st : ChatState) : String × ChatState :=
  if st.saved_workout_plans.isEmpty then (no_saved_workout_msg, st)
  else
    match number_part? message with
    | none => (cant_understand_workout_msg, st)
    | some np =>
      match pyInt? np with
      | none => (cant_understand_workout_msg, st)
      | some n =>
        match load_workout_plan st.saved_workout_plans (n - 1) with
        | .error m => ("❌ " ++ m, st)
        | .ok (plans, m) =>
          let st2 := { st with current_workout_plan := some plans }
          match format_workout_plan? plans with
          | none => (generic_error_msg, st2)
          | some details => ("✅ " ++ m ++ "\n\n" ++ details, st2)

/-- The `load diet` branch of `process_chat_message` (`app.py` lines 988-1009),
diet analogue of `process_load_workout`. -/
def process_load_diet (message : String) (st : ChatState) : String × ChatState :=
  if st.saved_diet_plans.isEmpty then (no_saved_diet_msg, st)
  else
    match number_part? message with
    | none => (cant_understand_diet_msg, st)
    | some np =>
      match pyInt? np with
      | none => (cant_understand_diet_msg, st)
      | some n =>
        match load_diet_plan st.saved_diet_plans (n - 1) with
        | .error m => ("❌ " ++ m, st)
        | .ok (plans, m) =>
          let st2 := { st with current_diet_plan := some plans }
          match format_diet_plan? plans with
          | none => (generic_error_msg, st2)
          | some details => ("✅ " ++ m ++ "\n\n" ++ details, st2)

/-! ## Profile update (`app.py` lines 1025-1049, 241-257;
`interactive_chat.py` lines 361-401) -/

/-- The key/value parsing shared by both profile-update handlers: strip the
leading `update profile`, split on commas, split each segment at its first
colon, trim both sides; segments without a colon are skipped. Duplicate keys
behave like repeated dict assignment (last wins). -/
def parse_profile_updates (message : String) : List (String × String) :=
  let update_text := pyStrip (pyReplace message "update profile" "")
  (pySplitOn update_text ",").foldl
    (fun updates pair =>
      match splitFirstColon pair with
      | none => updates
      | some kv => dictSet updates (pyStrip kv.1) (pyStrip kv.2))
    []

/-- The merge loop of `update_profile` (`app.py` lines 244-245) and
`handle_profile_update` (`interactive_chat.py` lines 376-377):
`for key, value in updates.items(): profile[key] = value`. -/
def update_profile_merge (profile updates : List (String × String)) :
    List (String × String) :=
  updates.foldl (fun p kv => dictSet p kv.1 kv.2) profile

/-- The profile resulting from an `update profile ...` message: parse, then
merge into the stored profile (both handlers; persistence of the merged
profile goes through the gateway and does not alter the mapping). -/
def handle_profile_update (user_input : String) (profile : List (String × String)) :
    List (String × String) :=
  update_profile_merge profile (parse_profile_updates user_input)

/-! ## Test fixtures used by the claim witnesses and counterexamples -/

/-- A response element that validates (used to exhibit a partial batch). -/
def c1_valid_json : Json :=
  .obj [("day", .str "Day 1"),
        ("exercises", .arr [.obj [("name", .str "Push-ups"), ("sets", .str "3"),
                                  ("reps", .str "12")]]),
        ("duration", .str "45 minutes"),
        ("intensity", .str "moderate")]

/-- The `WorkoutPlan` record `c1_valid_json` constructs. -/
def c1_valid_plan : WorkoutPlan :=
  ⟨"Day 1", [[("name", "Push-ups"), ("sets", "3"), ("reps", "12")]],
   "45 minutes", "moderate"⟩

/-- A valid stored workout day (first saved plan of the C4/C10 test state). -/
def c4_wp_json_1 : Json :=
  .obj [("day", .str "Day A"),
        ("exercises", .arr [.obj [("name", .str "Push-ups"), ("sets", .str "3"),
                                  ("reps", .str "12")]]),
        ("duration", .str "30 minutes"),
        ("intensity", .str "low")]

/-- The record `c4_wp_json_1` reconstructs to. -/
def c4_wp_plan_1 : WorkoutPlan :=
  ⟨"Day A", [[("name", "Push-ups"), ("sets", "3"), ("reps", "12")]], "30 minutes", "low"⟩

/-- A valid stored workout day (second saved plan of the C4/C10 test state). -/
def c4_wp_json_2 : Json :=
  .obj [("day", .str "Day B"),
        ("exercises", .arr [.obj [("name", .str "Push-ups"), ("sets", .str "3"),
                                  ("reps", .str "12")]]),
        ("duration", .str "45 minutes"),
        ("intensity", .str "high")]

/-- The record `c4_wp_json_2` reconstructs to. -/
def c4_wp_plan_2 : WorkoutPlan :=
  ⟨"Day B", [[("name", "Push-ups"), ("sets", "3"), ("reps", "12")]], "45 minutes", "high"⟩

/-- A session with two saved workout plans and no saved diet plans. -/
def c4_state : ChatState :=
  { user_profile := []
    current_workout_plan := none
    current_diet_plan := none
    saved_workout_plans := [⟨"Plan One", [c4_wp_json_1]⟩, ⟨"Plan Two", [c4_wp_json_2]⟩]
    saved_diet_plans := [] }

/-- A valid stored meal (first saved diet plan of the C10 test state). -/
def c10_diet_json_1 : Json :=
  .obj [("meal_type", .str "Breakfast"),
        ("foods", .arr [.str "Oatmeal"]),
        ("calories", .int 500),
        ("macros", .obj [("protein", .float 30), ("carbs", .float 60), ("fat", .float 10)])]

/-- A valid stored meal (second saved diet plan of the C10 test state). -/
def c10_diet_json_2 : Json :=
  .obj [("meal_type", .str "Lunch"),
        ("foods", .arr [.str "Chicken Breast"]),
        ("calories", .int 700),
        ("macros", .obj [("protein", .float 40), ("carbs", .float 45), ("fat", .float 15)])]

/-- The record `c10_diet_json_2` reconstructs to. -/
def c10_diet_plan_2 : DietPlan :=
  ⟨"Lunch", ["Chicken Breast"], 700, [("protein", 40), ("carbs", 45), ("fat", 15)]⟩

/-- A session with two saved workout plans and two saved diet plans. -/
def c10_state : ChatState :=
  { user_profile := []
    current_workout_plan := none
    current_diet_plan := none
    saved_workout_plans := [⟨"Plan One", [c4_wp_json_1]⟩, ⟨"Plan Two", [c4_wp_json_2]⟩]
    saved_diet_plans := [⟨"Diet One", [c10_diet_json_1]⟩, ⟨"Diet Two", [c10_diet_json_2]⟩] }

/-! ## Supporting lemmas -/

/-- Looking up the key just assigned returns the assigned value. -/
theorem dictGet?_dictSet_self {α : Type} (d : List (String × α)) (k : String) (v : α) :
    dictGet? (dictSet d k v) k = some v := by
  induction d with
  | nil => simp [dictSet, dictGet?]
  | cons kv d ih =>
    obtain ⟨k', v'⟩ := kv
    by_cases h : k' = k
    · subst h
      simp [dictSet, dictGet?]
    · simp [dictSet, dictGet?, h, ih]

/-- Assigning one key leaves every other key unchanged. -/
theorem dictGet?_dictSet_ne {α : Type} (d : List (String × α)) (k : String) (v : α)
    (k' : String) (h : k' ≠ k) :
    dictGet? (dictSet d k v) k' = dictGet? d k' := by
  induction d with
  | nil => simp [dictSet, dictGet?, Ne.symm h]
  | cons kv d ih =>
    obtain ⟨k'', v''⟩ := kv
    by_cases hk : k'' = k
    · subst hk
      simp [dictSet, dictGet?, Ne.symm h]
    · simp [dictSet, dictGet?, hk, ih]

/-- Python indexing at a non-negative index is positional lookup. -/
theorem pyIndex_nonneg {α : Type} (xs : List α) (i : Int) (h : 0 ≤ i) :
    pyIndex xs i = xs.get? i.toNat := by
  simp [pyIndex, h]

/-- Python indexing at `-1` on a non-empty list yields the final element. -/
theorem pyIndex_neg_one {α : Type} (xs : List α) (h : xs ≠ []) :
    pyIndex xs (-1) = xs.getLast? := by
  have hlen : 0 < xs.length := List.length_pos.mpr h
  have h0 : ¬ (0 ≤ (-1 : Int)) := by decide
  have h1 : 0 ≤ (xs.length : Int) + (-1) := by omega
  have h2 : ((xs.length : Int) + (-1)).toNat = xs.length - 1 := by omega
  simp only [pyIndex, h0, if_false, h1, if_true, h2]
  rw [List.get?_eq_getElem?, ← List.getLast?_eq_getElem?]

/-! ## Claim C1 -/

/-- C1 is false on the code: in a parsed response of two elements whose second
fails typed construction, `create_workout_plan` returns the one-element
partial list — it neither replaces the list with the fallback nor refuses to
return a partial list. -/
theorem c1_partial_list_counterexample :
    mkWorkoutPlan? (coerce_exercises (Json.int 5)) = none
    ∧ create_workout_plan 2 (some (.arr [c1_valid_json, .int 5])) = [c1_valid_plan]
    ∧ create_workout_plan 2 (some (.arr [c1_valid_json, .int 5]))
        ≠ _create_fallback_workout_plan 2 :=
  ⟨rfl, rfl, by decide⟩

/-- C1 as amended: elements that raise during coercion or typed construction
are dropped individually, and whenever at least one element validates the
caller receives exactly the validated subset — possibly a partial list — not
the fallback (first conjunct); the deterministic fallback is the result in
exactly the remaining cases: unparsable response, iteration raising, or no
element validating (second to fourth conjuncts). The four conjuncts cover
every response, so the fallback is used only on those failures. -/
theorem c1_amended_individual_drop (days : Int) (response : Option Json) :
    (∀ j items, response = some j → pyIter j = some items →
      workout_survivors items ≠ [] →
      create_workout_plan days response = workout_survivors items)
    ∧ (response = none →
      create_workout_plan days response = _create_fallback_workout_plan days)
    ∧ (∀ j, response = some j → pyIter j = none →
      create_workout_plan days response = _create_fallback_workout_plan days)
    ∧ (∀ j items, response = some j → pyIter j = some items →
      workout_survivors items = [] →
      create_workout_plan days response = _create_fallback_workout_plan days) := by
  refine ⟨?_, ?_, ?_, ?_⟩
  · intro j items hj hit hne
    subst hj
    have he : (workout_survivors items).isEmpty = false := by
      cases hl : workout_survivors items with
      | nil => exact absurd hl hne
      | cons a l => rfl
    simp [create_workout_plan, hit, he]
  · intro hj
    subst hj
    rfl
  · intro j hj hit
    subst hj
    simp [create_workout_plan, hit]
  · intro j items hj hit hs
    subst hj
    simp [create_workout_plan, hit, hs]

/-- Witness for the amended C1, exercising each of its four cases at a
concrete response: a mixed valid/invalid batch returns the partial survivor
list; an unparsable response, a non-iterable response and an all-invalid
batch each return the fallback. -/
theorem c1_amended_individual_drop_witness :
    create_workout_plan 2 (some (.arr [c1_valid_json, .int 5])) =
      workout_survivors [c1_valid_json, .int 5]
    ∧ create_workout_plan 3 none = _create_fallback_workout_plan 3
    ∧ create_workout_plan 2 (some (.int 9)) = _create_fallback_workout_plan 2
    ∧ create_workout_plan 2 (some (.arr [.int 7])) = _create_fallback_workout_plan 2 :=
  ⟨(c1_amended_individual_drop 2 (some (.arr [c1_valid_json, .int 5]))).1
      _ _ rfl rfl (by decide),
   (c1_amended_individual_drop 3 none).2.1 rfl,
   (c1_amended_individual_drop 2 (some (.int 9))).2.2.1 _ rfl rfl,
   (c1_amended_individual_drop 2 (some (.arr [.int 7]))).2.2.2 _ _ rfl rfl rfl⟩

/-! ## Claim C2 -/

/-- C2: for every day count (a Python `int` in the valid range, i.e. a natural
number), an unparsable LLM response makes `create_workout_plan` return exactly
`days` fallback records labelled `Day 1 .. Day days`. -/
theorem c2_fallback_exact_day_count (days : Nat) :
    (create_workout_plan (days : Int) none).length = days
    ∧ (create_workout_plan (days : Int) none).map WorkoutPlan.day =
        (List.range days).map (fun i => "Day " ++ toString (i + 1)) := by
  have h : create_workout_plan (days : Int) none = _create_fallback_workout_plan days := rfl
  rw [h]
  unfold _create_fallback_workout_plan
  constructor
  · simp
  · simp [List.map_map, Function.comp]

/-! ## Claim C3 -/

/-- C3: when the diet response is unparsable, or no element of it survives
validation, `create_diet_plan` returns exactly the four fixed fallback meals
Breakfast/Lunch/Dinner/Snack with calories 500/700/600/300, whatever daily
calories were requested. -/
theorem c3_diet_fallback_fixed_meals (daily_calories : Int) (response : Option Json)
    (h : response = none ∨ ∃ j, response = some j ∧ diet_survivors j = []) :
    create_diet_plan daily_calories response = _create_fallback_diet_plan
    ∧ (create_diet_plan daily_calories response).map DietPlan.meal_type =
        ["Breakfast", "Lunch", "Dinner", "Snack"]
    ∧ (create_diet_plan daily_calories response).map DietPlan.calories =
        [500, 700, 600, 300] := by
  have heq : create_diet_plan daily_calories response = _create_fallback_diet_plan := by
    rcases h with h | ⟨j, hj, hs⟩
    · subst h
      rfl
    · rw [hj]
      rcases hit : pyIter j with _ | items
      · simp [create_diet_plan, hit]
      · have hs' : diet_survivors_of items = [] := by
          unfold diet_survivors at hs
          rw [hit] at hs
          simpa using hs
        simp [create_diet_plan, hit, hs']
  refine ⟨heq, ?_, ?_⟩ <;> rw [heq] <;> rfl

/-- Witness for C3 at a concrete failing response: a parsed array whose only
element is an integer (construction fails, no survivors), with an arbitrary
calorie request. -/
theorem c3_diet_fallback_fixed_meals_witness :
    create_diet_plan 1234 (some (.arr [.int 7])) = _create_fallback_diet_plan
    ∧ (create_diet_plan 1234 (some (.arr [.int 7]))).map DietPlan.meal_type =
        ["Breakfast", "Lunch", "Dinner", "Snack"]
    ∧ (create_diet_plan 1234 (some (.arr [.int 7]))).map DietPlan.calories =
        [500, 700, 600, 300] :=
  c3_diet_fallback_fixed_meals 1234 (some (.arr [.int 7])) (Or.inr ⟨_, rfl, rfl⟩)

/-! ## Claim C5 -/

/-- C5: `update profile age: 31, goals: lose fat` parses to exactly the
mapping `age ↦ "31", goals ↦ "lose fat"` (trimmed, string-valued), and the
merged profile has those two bindings while every other key keeps its previous
value. -/
theorem c5_update_profile_exact_merge :
    parse_profile_updates "update profile age: 31, goals: lose fat" =
      [("age", "31"), ("goals", "lose fat")]
    ∧ ∀ profile : List (String × String),
      dictGet? (handle_profile_update "update profile age: 31, goals: lose fat" profile)
          "age" = some "31"
      ∧ dictGet? (handle_profile_update "update profile age: 31, goals: lose fat" profile)
          "goals" = some "lose fat"
      ∧ ∀ k, k ≠ "age" → k ≠ "goals" →
          dictGet? (handle_profile_update "update profile age: 31, goals: lose fat" profile)
            k = dictGet? profile k := by
  refine ⟨rfl, fun profile => ?_⟩
  have hm : handle_profile_update "update profile age: 31, goals: lose fat" profile =
      dictSet (dictSet profile "age" "31") "goals" "lose fat" := rfl
  refine ⟨?_, ?_, ?_⟩
  · rw [hm, dictGet?_dictSet_ne _ _ _ _ (by decide), dictGet?_dictSet_self]
  · rw [hm, dictGet?_dictSet_self]
  · intro k hk1 hk2
    rw [hm, dictGet?_dictSet_ne _ _ _ _ hk2, dictGet?_dictSet_ne _ _ _ _ hk1]

/-- Witness for C5 on a concrete profile: `age` is overwritten, the unrelated
key `weight` keeps its previous value. -/
theorem c5_update_profile_exact_merge_witness :
    dictGet? (handle_profile_update "update profile age: 31, goals: lose fat"
      [("age", "30"), ("weight", "70kg")]) "age" = some "31"
    ∧ dictGet? (handle_profile_update "update profile age: 31, goals: lose fat"
      [("age", "30"), ("weight", "70kg")]) "weight" =
      dictGet? [("age", "30"), ("weight", "70kg")] "weight" :=
  ⟨(c5_update_profile_exact_merge.2 _).1,
   (c5_update_profile_exact_merge.2 _).2.2 "weight" (by decide) (by decide)⟩

/-! ## Claim C6 -/

/-- C6 is false for one of the two interpreters it covers:
`interactive_chat.handle_workout_creation` extracts the `level:` token but
performs no membership check, so the out-of-set token `superhuman` is passed
to the Plan Generator as the fitness level. -/
theorem c6_level_unvalidated_counterexample :
    (handle_workout_creation_params "create workout plan level: superhuman").2 =
      "superhuman"
    ∧ "superhuman" ∉ allowed_levels :=
  ⟨rfl, by decide⟩

/-- C6 as amended: the validation holds for the `app.py` interpreter only —
the level `process_chat_message` passes to the plan creator is always a member
of `{beginner, intermediate, advanced}` (an out-of-set token is replaced by
the default), while `interactive_chat.handle_workout_creation` forwards the
extracted token unvalidated (see the counterexample). -/
theorem c6_level_validated_in_app (message : String) :
    (process_create_workout_params message).2 ∈ allowed_levels := by
  have h : (process_create_workout_params message).2 = extract_level_app message := rfl
  rw [h]
  unfold extract_level_app
  cases hsplit : pySplitIdx1 (pyLower message) "level:" with
  | none => simp [allowed_levels]
  | some part =>
    cases hhead : (pyWsSplit (pyStrip part)).head? with
    | none => simp [hhead, allowed_levels]
    | some lv =>
      simp only [hhead]
      by_cases hmem : lv ∈ allowed_levels
      · rw [if_pos hmem]
        exact hmem
      · rw [if_neg hmem]
        decide

/-! ## Claim C8 -/

/-- C8 is false on the code: in `get_or_create_user`, `save_profile`,
`save_workout_plan` and `save_diet_plan` the `except psycopg2.Error` handler
itself calls `self.conn.rollback()` (db_manager.py lines 166, 238, 270, 330);
when that rollback raises — e.g. the connection has died, the very
"connection loss" failure the claim covers — nothing catches it, and the
exception escapes the gateway boundary instead of the documented sentinel
being returned. -/
theorem c8_rollback_escape_counterexample :
    db_get_or_create_user true .err (.ok 1) .err = .raised
    ∧ db_get_or_create_user true .err (.ok 1) .err ≠ .ret (-1, false)
    ∧ db_save_profile true .err (.ok ()) .err = .raised
    ∧ db_save_profile true .err (.ok ()) .err ≠ .ret false
    ∧ db_save_workout_plan true .err .err = .raised
    ∧ db_save_workout_plan true .err .err ≠ .ret (-1)
    ∧ db_save_diet_plan true .err .err = .raised
    ∧ db_save_diet_plan true .err .err ≠ .ret (-1) :=
  ⟨rfl, by decide, rfl, by decide, rfl, by decide, rfl, by decide⟩

/-- C8 as amended: on any underlying failure each gateway operation returns
its documented sentinel — unconditionally for the read operations
(`get_profile`, `get_workout_plans`, `get_diet_plans`, which never raise past
the boundary and are total into their result type), and for the four writing
operations provided the rollback their `except` handler performs succeeds; a
failing rollback instead escapes the gateway (see the counterexample). -/
theorem c8_gateway_sentinels
    (sel₁ : QOutcome (Option Int)) (ins₁ : QOutcome Int) (rb₁ : QOutcome Unit)
    (selp : QOutcome (Option (List (String × String))))
    (selb : QOutcome Bool) (wr : QOutcome Unit) (rbp : QOutcome Unit) (b : Bool)
    (insw : QOutcome Int) (rbw : QOutcome Unit) (selw : QOutcome (List SavedPlan))
    (insd : QOutcome Int) (rbd : QOutcome Unit) (seld : QOutcome (List SavedPlan)) :
    db_get_profile false selp = []
    ∧ db_get_profile true .err = []
    ∧ db_get_workout_plans false selw = []
    ∧ db_get_workout_plans true .err = []
    ∧ db_get_diet_plans false seld = []
    ∧ db_get_diet_plans true .err = []
    ∧ db_get_or_create_user false sel₁ ins₁ rb₁ = .ret (-1, false)
    ∧ db_get_or_create_user true .err ins₁ (.ok ()) = .ret (-1, false)
    ∧ db_get_or_create_user true (.ok none) .err (.ok ()) = .ret (-1, false)
    ∧ db_save_profile false selb wr rbp = .ret false
    ∧ db_save_profile true .err wr (.ok ()) = .ret false
    ∧ db_save_profile true (.ok b) .err (.ok ()) = .ret false
    ∧ db_save_workout_plan false insw rbw = .ret (-1)
    ∧ db_save_workout_plan true .err (.ok ()) = .ret (-1)
    ∧ db_save_diet_plan false insd rbd = .ret (-1)
    ∧ db_save_diet_plan true .err (.ok ()) = .ret (-1) :=
  ⟨rfl, rfl, rfl, rfl, rfl, rfl, rfl, rfl, rfl, rfl, rfl, rfl, rfl, rfl, rfl, rfl⟩

/-! ## Claim C9 -/

/-- C9: whenever the `days:` token of a `create workout` message exists but is
not parsable as an integer, the (shared) extraction answers the default of 4;
totality of `extract_days` models completion without an exception. -/
theorem c9_unparsable_days_defaults (message tok : String)
    (htok : daysToken? message = some tok) (hbad : pyInt? tok = none) :
    extract_days message = 4 := by
  unfold extract_days
  rw [htok]
  simp [hbad]

/-- Witness for C9 at the spec's own example, `days: abc`. -/
theorem c9_unparsable_days_defaults_witness :
    daysToken? "create workout plan days: abc" = some "abc"
    ∧ pyInt? "abc" = none
    ∧ extract_days "create workout plan days: abc" = 4 :=
  ⟨rfl, rfl, c9_unparsable_days_defaults _ "abc" rfl rfl⟩

/-! ## Claim C4 -/

/-- C4: for the `load workout` command, (a) a parsed index `n` with
`1 ≤ n ≤ length` replaces the current workout plan by the reconstruction of
the saved plan at 0-based index `n - 1`; (b) an index beyond the list length
answers the `❌ list index out of range` error reply and leaves the state
unchanged; (c) an unparsable trailing token answers the instructional error
reply and leaves the state unchanged. Totality of `process_load_workout`
models that no exception reaches the user. -/
theorem c4_load_workout_index_handling (st : ChatState) (message np : String) (n : Int) :
    (∀ (sp : SavedPlan) (plans : List WorkoutPlan),
      number_part? message = some np → pyInt? np = some n → 1 ≤ n →
      st.saved_workout_plans.get? (n - 1).toNat = some sp →
      sp.plan_data.mapM mkWorkoutPlan? = some plans →
      (process_load_workout message st).2.current_workout_plan = some plans)
    ∧ (number_part? message = some np → pyInt? np = some n →
       st.saved_workout_plans ≠ [] →
       (st.saved_workout_plans.length : Int) < n →
       process_load_workout message st = ("❌ list index out of range", st))
    ∧ (number_part? message = some np → pyInt? np = none →
       st.saved_workout_plans ≠ [] →
       process_load_workout message st = (cant_understand_workout_msg, st)) := by
  refine ⟨?_, ?_, ?_⟩
  · intro sp plans hnp hn h1 hget hmk
    have hnil : st.saved_workout_plans ≠ [] := by
      intro hl
      rw [hl] at hget
      simp at hget
    have hne : st.saved_workout_plans.isEmpty = false := by
      cases hl : st.saved_workout_plans with
      | nil => exact absurd hl hnil
      | cons a l => rfl
    have hidx : pyIndex st.saved_workout_plans (n - 1) = some sp := by
      rw [pyIndex_nonneg _ _ (by omega), hget]
    have hload : load_workout_plan st.saved_workout_plans (n - 1) =
        .ok (plans, "Loaded workout plan: " ++ sp.plan_name) := by
      unfold load_workout_plan
      rw [hne]
      simp only [Bool.false_eq_true, if_false, hidx, hmk]
    unfold process_load_workout
    rw [hne]
    simp only [Bool.false_eq_true, if_false, hnp, hn, hload]
    cases hf : format_workout_plan? plans <;> rfl
  · intro hnp hn hnil hlt
    have hlen : 0 < st.saved_workout_plans.length := List.length_pos.mpr hnil
    have hne : st.saved_workout_plans.isEmpty = false := by
      cases hl : st.saved_workout_plans with
      | nil => exact absurd hl hnil
      | cons a l => rfl
    have hidx : pyIndex st.saved_workout_plans (n - 1) = none := by
      rw [pyIndex_nonneg _ _ (by omega)]
      exact List.get?_eq_none.mpr (by omega)
    have hload : load_workout_plan st.saved_workout_plans (n - 1) =
        .error "list index out of range" := by
      unfold load_workout_plan
      rw [hne]
      simp only [Bool.false_eq_true, if_false, hidx]
    unfold process_load_workout
    rw [hne]
    simp only [Bool.false_eq_true, if_false, hnp, hn, hload]
    rfl
  · intro hnp hn hnil
    have hne : st.saved_workout_plans.isEmpty = false := by
      cases hl : st.saved_workout_plans with
      | nil => exact absurd hl hnil
      | cons a l => rfl
    unfold process_load_workout
    rw [hne]
    simp only [Bool.false_eq_true, if_false, hnp, hn]

/-- Witness for C4 against a two-plan saved list: `load workout plan: 2` loads
0-based index 1, `load workout plan: 99` answers the out-of-range reply,
`load workout plan: abc` answers the instructional reply. -/
theorem c4_load_workout_index_handling_witness :
    (process_load_workout "load workout plan: 2" c4_state).2.current_workout_plan =
      some [c4_wp_plan_2]
    ∧ process_load_workout "load workout plan: 99" c4_state =
      ("❌ list index out of range", c4_state)
    ∧ process_load_workout "load workout plan: abc" c4_state =
      (cant_understand_workout_msg, c4_state) :=
  ⟨(c4_load_workout_index_handling c4_state "load workout plan: 2" "2" 2).1
      ⟨"Plan Two", [c4_wp_json_2]⟩ [c4_wp_plan_2] rfl rfl (by decide) rfl rfl,
   (c4_load_workout_index_handling c4_state "load workout plan: 99" "99" 99).2.1
      rfl rfl (by simp [c4_state]) (by decide),
   (c4_load_workout_index_handling c4_state "load workout plan: abc" "abc" 0).2.2
      rfl rfl (by simp [c4_state])⟩

/-! ## Claim C10 -/

/-- C10: `load workout plan: 0` parses to index `0`, becomes 0-based index
`-1`, and Python negative indexing selects the final saved element, which is
loaded as the current plan with a `✅` success reply — not an out-of-range
error; the same holds for `load diet plan: 0` over the saved diet plans. -/
theorem c10_load_plan_zero_selects_last (st : ChatState) (message np : String) :
    (∀ (sp : SavedPlan) (plans : List WorkoutPlan) (details : String),
      st.saved_workout_plans ≠ [] →
      number_part? message = some np → pyInt? np = some 0 →
      st.saved_workout_plans.getLast? = some sp →
      sp.plan_data.mapM mkWorkoutPlan? = some plans →
      format_workout_plan? plans = some details →
      process_load_workout message st =
        ("✅ " ++ ("Loaded workout plan: " ++ sp.plan_name) ++ "\n\n" ++ details,
         { st with current_workout_plan := some plans }))
    ∧ (∀ (sp : SavedPlan) (plans : List DietPlan) (details : String),
      st.saved_diet_plans ≠ [] →
      number_part? message = some np → pyInt? np = some 0 →
      st.saved_diet_plans.getLast? = some sp →
      sp.plan_data.mapM mkDietPlan? = some plans →
      format_diet_plan? plans = some details →
      process_load_diet message st =
        ("✅ " ++ ("Loaded diet plan: " ++ sp.plan_name) ++ "\n\n" ++ details,
         { st with current_diet_plan := some plans })) := by
  constructor
  · intro sp plans details hnil hnp hn hlast hmk hfmt
    have hne : st.saved_workout_plans.isEmpty = false := by
      cases hl : st.saved_workout_plans with
      | nil => exact absurd hl hnil
      | cons a l => rfl
    have hidx : pyIndex st.saved_workout_plans ((0 : Int) - 1) = some sp := by
      rw [show (0 : Int) - 1 = -1 by decide, pyIndex_neg_one _ hnil, hlast]
    have hload : load_workout_plan st.saved_workout_plans ((0 : Int) - 1) =
        .ok (plans, "Loaded workout plan: " ++ sp.plan_name) := by
      unfold load_workout_plan
      rw [hne]
      simp only [Bool.false_eq_true, if_false, hidx, hmk]
    unfold process_load_workout
    rw [hne]
    simp only [Bool.false_eq_true, if_false, hnp, hn, hload, hfmt]
  · intro sp plans details hnil hnp hn hlast hmk hfmt
    have hne : st.saved_diet_plans.isEmpty = false := by
      cases hl : st.saved_diet_plans with
      | nil => exact absurd hl hnil
      | cons a l => rfl
    have hidx : pyIndex st.saved_diet_plans ((0 : Int) - 1) = some sp := by
      rw [show (0 : Int) - 1 = -1 by decide, pyIndex_neg_one _ hnil, hlast]
    have hload : load_diet_plan st.saved_diet_plans ((0 : Int) - 1) =
        .ok (plans, "Loaded diet plan: " ++ sp.plan_name) := by
      unfold load_diet_plan
      rw [hne]
      simp only [Bool.false_eq_true, if_false, hidx, hmk]
    unfold process_load_diet
    rw [hne]
    simp only [Bool.false_eq_true, if_false, hnp, hn, hload, hfmt]

/-- Witness for C10: against two-element saved lists, index 0 loads the final
saved plan (`Plan Two` / `Diet Two`) and reports success. -/
theorem c10_load_plan_zero_selects_last_witness :
    process_load_workout "load workout plan: 0" c10_state =
      ("✅ Loaded workout plan: Plan Two\n\n📅 Day B:\n⏱️ Duration: 45 minutes\n💪 Intensity: high\nExercises:\n- Push-ups: 3 sets x 12 reps\n\n",
       { c10_state with current_workout_plan := some [c4_wp_plan_2] })
    ∧ process_load_diet "load diet plan: 0" c10_state =
      ("✅ Loaded diet plan: Diet Two\n\n🍽️ Lunch:\nCalories: 700\nMacros: Protein: 40.0g, Carbs: 45.0g, Fat: 15.0g\nFoods:\n- Chicken Breast\n\n",
       { c10_state with current_diet_plan := some [c10_diet_plan_2] }) :=
  ⟨(c10_load_plan_zero_selects_last c10_state "load workout plan: 0" "0").1
      ⟨"Plan Two", [c4_wp_json_2]⟩ [c4_wp_plan_2] _ (by simp [c10_state]) rfl rfl rfl rfl rfl,
   (c10_load_plan_zero_selects_last c10_state "load diet plan: 0" "0").2
      ⟨"Diet Two", [c10_diet_json_2]⟩ [c10_diet_plan_2] _ (by simp [c10_state]) rfl rfl rfl rfl rfl⟩

/-! ## Claim C7 -/

/-- Induction core for C7, generalised over the starting index of
`enumerate`: when the event construction succeeds, it yields one event per
plan, the event for relative index `i` beginning `k + i` days after the start
date, all with the configured duration. -/
theorem calendar_events_from (start dur : Int) (plans : List WorkoutPlan) :
    ∀ (k : Nat) (evs : List CalEvent),
      (plans.enumFrom k).mapM (calEventOf start dur) = some evs →
      evs.length = plans.length
      ∧ evs.map CalEvent.begin =
          (List.range plans.length).map (fun i => start + 1440 * ((k + i : Nat) : Int))
      ∧ ∀ e ∈ evs, e.duration = dur := by
  induction plans with
  | nil =>
    intro k evs h
    simp only [List.enumFrom_nil, List.mapM_nil, pure, Option.some.injEq] at h
    subst h
    simp
  | cons p ps ih =>
    intro k evs h
    rw [List.enumFrom_cons, List.mapM_cons] at h
    simp only [bind, Option.bind_eq_some, pure, Option.some.injEq] at h
    obtain ⟨e, he, es, hes, hevs⟩ := h
    subst hevs
    have hrec := ih (k + 1) es hes
    have hed : e.duration = dur ∧ e.begin = start + 1440 * (k : Int) := by
      unfold calEventOf at he
      simp only [bind, Option.bind_eq_some, Option.some.injEq] at he
      obtain ⟨d, _, hee⟩ := he
      subst hee
      exact ⟨rfl, rfl⟩
    refine ⟨by simp [hrec.1], ?_, ?_⟩
    · simp only [List.length_cons]
      rw [List.map_cons, List.range_succ_eq_map, List.map_cons, List.map_map, hed.2,
        hrec.2.1]
      refine List.cons_eq_cons.mpr ⟨by norm_num, ?_⟩
      refine List.map_congr_left (fun i _ => ?_)
      have hn : (k + 1 + i : Nat) = (k + (i + 1) : Nat) := by omega
      simp [Function.comp, Nat.succ_eq_add_one, hn]
    · intro e' he'
      rcases List.mem_cons.mp he' with h1 | h2
      · rw [h1]
        exact hed.1
      · exact hrec.2.2 e' h2

/-- C7: a successful export of an `n`-day plan starting at `start` produces
exactly `n` events, the event for plan index `i` beginning at `start + i`
days (1440 minutes per day), every event carrying the configured duration. -/
theorem c7_calendar_one_event_per_day (plans : List WorkoutPlan) (start dur : Int)
    (evs : List CalEvent) (h : create_workout_calendar plans start dur = some evs) :
    evs.length = plans.length
    ∧ evs.map CalEvent.begin =
        (List.range plans.length).map (fun i : Nat => start + 1440 * (i : Int))
    ∧ ∀ e ∈ evs, e.duration = dur := by
  have h' : (plans.enumFrom 0).mapM (calEventOf start dur) = some evs := h
  have t := calendar_events_from start dur plans 0 evs h'
  refine ⟨t.1, ?_, t.2.2⟩
  rw [t.2.1]
  exact List.map_congr_left (fun i _ => by rw [Nat.zero_add])

/-- Witness for C7: exporting the 3-day fallback plan starting 2024-01-01
(encoded as minutes since the epoch: day 19723, i.e. 28401120) with the
default 60-minute duration yields 3 events starting 2024-01-01, 2024-01-02
and 2024-01-03, each 60 minutes long. -/
theorem c7_calendar_one_event_per_day_witness :
    ∃ evs, create_workout_calendar (_create_fallback_workout_plan 3) 28401120 60 = some evs
      ∧ evs.length = 3
      ∧ evs.map CalEvent.begin = [28401120, 28402560, 28404000]
      ∧ ∀ e ∈ evs, e.duration = 60 := by
  have hs : (create_workout_calendar (_create_fallback_workout_plan 3) 28401120 60).isSome
      = true := by decide
  obtain ⟨evs, hevs⟩ := Option.isSome_iff_exists.mp hs
  have t := c7_calendar_one_event_per_day _ _ _ _ hevs
  refine ⟨evs, hevs, ?_, ?_, t.2.2⟩
  · rw [t.1]
    rfl
  · rw [t.2.1]
    decide
